import Mathlib

/-!
Verification of the ec2-auto-shutdown-cdk repository.

The repository declares one CDK stack (`Ec2AutoShutdownStack` in
`ec2_auto_shutdown/ec2_auto_shutdown_stack.py`): a Lambda function, an
EventBridge rule with a cron schedule, and a target binding from the rule
to the function, plus one placeholder unit test
(`tests/unit/test_ec2_auto_shutdown_stack.py`).

The embedding models the stack declaration together with the synthesis
semantics of the aws-cdk-lib constructs the stack invokes
(`aws_events.Schedule.cron`, `aws_lambda.Function`, `aws_events.Rule`,
`aws_events_targets.LambdaFunction`), rendering the CloudFormation-style
resource list the deployment template would contain.  Logical ids are
modelled as construct paths (the real toolkit appends a deterministic hash
suffix, which is irrelevant to every property proved here).
-/

namespace Ec2AutoShutdown

/-- Embeds `aws_cdk.Duration` at the granularity the stack uses:
`Duration.seconds(n)` carries an amount of seconds. -/
structure Duration where
  amountSeconds : Nat
deriving DecidableEq, Repr

/-- Embeds `Duration.seconds`. -/
def Duration.seconds (n : Nat) : Duration := ⟨n⟩

/-- Embeds the `CronOptions` accepted by `aws_events.Schedule.cron`;
every field is optional and defaults to absent. -/
structure CronOptions where
  minute : Option String := none
  hour : Option String := none
  day : Option String := none
  month : Option String := none
  year : Option String := none
  weekDay : Option String := none
deriving DecidableEq, Repr

/-- Embeds the `fallback` helper of aws_events scheduling: an absent
option falls back to the given default field text. -/
def fallback (x : Option String) (d : String) : String := x.getD d

/-- Embeds `aws_events.Schedule.cron`: supplying both `day` and `weekDay`
is rejected; otherwise minute, hour, month and year default to the
wildcard `*`, `weekDay` defaults to `?`, `day` defaults to `*` (or to `?`
when a `weekDay` was supplied), and the rendered schedule expression is
`cron(minute hour day month weekDay year)`. -/
def Schedule.cron (o : CronOptions) : Except String String :=
  if o.weekDay.isSome && o.day.isSome then
    Except.error "Cannot supply both day and weekDay, use at most one"
  else
    let minuteF := fallback o.minute "*"
    let hourF := fallback o.hour "*"
    let monthF := fallback o.month "*"
    let yearF := fallback o.year "*"
    let dayF := fallback o.day (if o.weekDay.isSome then "?" else "*")
    let weekDayF := fallback o.weekDay "?"
    Except.ok ("cron(" ++ minuteF ++ " " ++ hourF ++ " " ++ dayF ++ " "
      ++ monthF ++ " " ++ weekDayF ++ " " ++ yearF ++ ")")

/-- One target entry of an EventBridge rule: the auto-generated target id
and a reference to the target's ARN (modelled as the logical id of the
referenced resource). -/
structure RuleTarget where
  targetId : String
  arnRef : String
deriving DecidableEq, Repr

/-- Properties of the CloudFormation-style resources this stack
synthesizes. -/
inductive ResourceProps where
  | iamRole (assumeService : String) (managedPolicy : String)
  | lambdaFunction (runtime handler codePath : String)
      (timeoutSeconds : Nat) (roleRef : String)
  | lambdaPermission (action principal functionRef sourceArnRef : String)
  | eventsRule (scheduleExpression : String) (state : String)
      (targets : List RuleTarget)
deriving DecidableEq, Repr

/-- A resource of the synthesized template: logical id (modelled as the
construct path), CloudFormation type, and properties. -/
structure Resource where
  logicalId : String
  resourceType : String
  props : ResourceProps
deriving DecidableEq, Repr

/-- Embeds `aws_lambda.Runtime.PYTHON_3_13` as its runtime tag. -/
def Runtime.PYTHON_3_13 : String := "python3.13"

/-- Construct-level state of an `aws_lambda.Function` declared without an
explicit role: its id, configuration, and the invoke permissions added to
it so far (child id paired with the source rule reference), mirroring the
function's child constructs. -/
structure FunctionConstruct where
  fid : String
  runtime : String
  handler : String
  codePath : String
  timeout : Duration
  permissions : List (String × String)
deriving DecidableEq, Repr

/-- Embeds the `aws_lambda.Function` constructor as called by the stack
(no role supplied, so an implicit execution role child is synthesized at
render time); no permissions exist yet. -/
def mkFunction (fid runtime handler codePath : String) (timeout : Duration) :
    FunctionConstruct :=
  ⟨fid, runtime, handler, codePath, timeout, []⟩

/-- Embeds `aws_events_targets.addLambdaPermission`: the permission child
is created only if no child with the same permission id exists yet
(the `tryFindChild` guard), so a second registration of the same rule is a
no-op on the function. -/
def FunctionConstruct.addLambdaPermission (fn : FunctionConstruct)
    (permissionId ruleArnRef : String) : FunctionConstruct :=
  if (fn.permissions.map Prod.fst).contains permissionId then fn
  else { fn with permissions := fn.permissions ++ [(permissionId, ruleArnRef)] }

/-- Construct-level state of an `aws_events.Rule`: id, rendered schedule
expression, and the target entries registered so far. -/
structure RuleConstruct where
  rid : String
  scheduleExpression : String
  targets : List RuleTarget
deriving DecidableEq, Repr

/-- Embeds the `aws_events.Rule` constructor as called by the stack:
a rule with the given schedule expression and no targets yet. -/
def mkRule (rid scheduleExpression : String) : RuleConstruct :=
  ⟨rid, scheduleExpression, []⟩

/-- Embeds `Names.nodeUniqueId` over a construct path, keeping only
alphanumeric characters of each component (the real toolkit additionally
appends a hash suffix, omitted here). -/
def nodeUniqueId (path : List String) : String :=
  String.join (path.map (fun c => String.mk (c.toList.filter Char.isAlphanum)))

/-- Embeds `Rule.add_target` applied to a `targets.LambdaFunction`
target: binding the target first adds an invoke permission to the function
(deduplicated per rule by permission id), then appends a target entry with
the auto-generated id `Target<n>` where `n` is the current number of
targets, referring to the function's ARN. -/
def addTarget (stackId : String) (rule : RuleConstruct)
    (fn : FunctionConstruct) : RuleConstruct × FunctionConstruct :=
  let autoGeneratedId := "Target" ++ toString rule.targets.length
  let permissionId := "AllowEventRule" ++ nodeUniqueId [stackId, rule.rid]
  let fn2 := fn.addLambdaPermission permissionId rule.rid
  let rule2 := { rule with
    targets := rule.targets ++ [⟨autoGeneratedId, fn.fid⟩] }
  (rule2, fn2)

/-- Renders a function construct into template resources: the implicit
execution role (assumed by the Lambda service, with the basic execution
managed policy), the function itself (referencing that role), and one
`AWS::Lambda::Permission` per registered invoke permission (action
`lambda:InvokeFunction` for principal `events.amazonaws.com`, source ARN
referencing the rule). -/
def renderFunction (fn : FunctionConstruct) : List Resource :=
  [ ⟨fn.fid ++ "/ServiceRole", "AWS::IAM::Role",
      ResourceProps.iamRole "lambda.amazonaws.com"
        "service-role/AWSLambdaBasicExecutionRole"⟩,
    ⟨fn.fid, "AWS::Lambda::Function",
      ResourceProps.lambdaFunction fn.runtime fn.handler fn.codePath
        fn.timeout.amountSeconds (fn.fid ++ "/ServiceRole")⟩ ]
  ++ fn.permissions.map (fun p =>
      ⟨fn.fid ++ "/" ++ p.1, "AWS::Lambda::Permission",
        ResourceProps.lambdaPermission "lambda:InvokeFunction"
          "events.amazonaws.com" fn.fid p.2⟩)

/-- Renders a rule construct into its template resource (rules synthesize
in state `ENABLED` by default). -/
def renderRule (rule : RuleConstruct) : Resource :=
  ⟨rule.rid, "AWS::Events::Rule",
    ResourceProps.eventsRule rule.scheduleExpression "ENABLED" rule.targets⟩

/-- Embeds `Ec2AutoShutdownStack.__init__` followed by template
synthesis: declares the shutdown Lambda (runtime Python 3.13, handler
`handler.lambda_handler`, code asset `ec2_auto_shutdown/lambda`, timeout
60 seconds), the daily rule with `Schedule.cron(minute="0", hour="18")`,
registers the function as the rule's target, and renders the resulting
template.  Synthesis fails when schedule rendering fails. -/
def Ec2AutoShutdownStack.synth (constructId : String) :
    Except String (List Resource) := do
  let shutdownLambda := mkFunction "Ec2AutoShutdownFunction"
    Runtime.PYTHON_3_13 "handler.lambda_handler" "ec2_auto_shutdown/lambda"
    (Duration.seconds 60)
  let scheduleExpression ← Schedule.cron
    { minute := some "0", hour := some "18" }
  let rule := mkRule "DailyShutdownRule" scheduleExpression
  let (rule2, shutdownLambda2) := addTarget constructId rule shutdownLambda
  Except.ok (renderFunction shutdownLambda2 ++ [renderRule rule2])

/-- Variant of the stack where `rule.add_target` is invoked a second time
with the same function target, used to settle the idempotence claim about
the register-a-target operation. -/
def Ec2AutoShutdownStack.synthDoubleTarget (constructId : String) :
    Except String (List Resource) := do
  let shutdownLambda := mkFunction "Ec2AutoShutdownFunction"
    Runtime.PYTHON_3_13 "handler.lambda_handler" "ec2_auto_shutdown/lambda"
    (Duration.seconds 60)
  let scheduleExpression ← Schedule.cron
    { minute := some "0", hour := some "18" }
  let rule := mkRule "DailyShutdownRule" scheduleExpression
  let (rule2, shutdownLambda2) := addTarget constructId rule shutdownLambda
  let (rule3, shutdownLambda3) := addTarget constructId rule2 shutdownLambda2
  Except.ok (renderFunction shutdownLambda3 ++ [renderRule rule3])

/-- The template synthesized with the default inputs the test uses
(construct id `ec2-auto-shutdown`). -/
def defaultTemplate : List Resource :=
  (Ec2AutoShutdownStack.synth "ec2-auto-shutdown").toOption.getD []

/-- The template synthesized with the default inputs when the target is
registered twice. -/
def defaultTemplateDouble : List Resource :=
  (Ec2AutoShutdownStack.synthDoubleTarget "ec2-auto-shutdown").toOption.getD []

/-- Embeds the unit test `test_sqs_queue_created` of
`tests/unit/test_ec2_auto_shutdown_stack.py`: it instantiates the stack
with id `ec2-auto-shutdown`, renders its template, and makes no assertion
about it (the resource-property assertion is commented out), so its
outcome is the synthesis outcome with the template discarded. -/
def test_sqs_queue_created : Except String Unit :=
  (Ec2AutoShutdownStack.synth "ec2-auto-shutdown").map (fun _ => ())

/-- Outcome of the test as a function of an arbitrary synthesis outcome:
the template is discarded and nothing is asserted about it. -/
def testOutcomeOf (s : Except String (List Resource)) : Except String Unit :=
  s.map (fun _ => ())

/-- Count of resources of a given CloudFormation type in a template. -/
def countType (ty : String) (t : List Resource) : Nat :=
  (t.filter (fun r => r.resourceType == ty)).length

/-- The schedule expression of a resource, when it is a rule. -/
def scheduleExprOf (r : Resource) : Option String :=
  match r.props with
  | ResourceProps.eventsRule e _ _ => some e
  | _ => none

/-- The target list of a resource, when it is a rule. -/
def targetsOf (r : Resource) : Option (List RuleTarget) :=
  match r.props with
  | ResourceProps.eventsRule _ _ ts => some ts
  | _ => none

/-- The explicit resource limit a resource declares, if any: the only
limit-typed configuration in the stack is the function timeout. -/
def declaredLimit (r : Resource) : Option Nat :=
  match r.props with
  | ResourceProps.lambdaFunction _ _ _ t _ => some t
  | _ => none

/-- Whether a resource is a schedule rule. -/
def isRule (r : Resource) : Bool := r.resourceType == "AWS::Events::Rule"

/-- Whether a resource is a function resource. -/
def isFunction (r : Resource) : Bool :=
  r.resourceType == "AWS::Lambda::Function"

end Ec2AutoShutdown

namespace Ec2AutoShutdown

/-- Synthesis with the default inputs succeeds and yields exactly the
default template. -/
theorem synth_default_ok :
    Ec2AutoShutdownStack.synth "ec2-auto-shutdown" =
      Except.ok defaultTemplate := by
  rfl

/-- C1: with default inputs, `Schedule.cron(minute="0", hour="18")`
renders minute `0`, hour `18`, day and month as the wildcard, weekday as
`?`, i.e. `cron(0 18 * * ? *)`, and the unique schedule rule of the
synthesized template carries exactly that schedule expression. -/
theorem C1_schedule_cron_expression :
    Schedule.cron { minute := some "0", hour := some "18" } =
      Except.ok "cron(0 18 * * ? *)" ∧
    (defaultTemplate.filter isRule).map scheduleExprOf =
      [some "cron(0 18 * * ? *)"] := by
  exact ⟨rfl, rfl⟩

/-- C2: the function resource of the synthesized template declares a
timeout of exactly 60 seconds, and this timeout is the only explicit
resource limit declared by any resource of the stack. -/
theorem C2_timeout_only_limit :
    defaultTemplate.filterMap declaredLimit = [60] ∧
    (defaultTemplate.filter isFunction).map declaredLimit = [some 60] := by
  exact ⟨rfl, rfl⟩

/-- C3: the template synthesized from the stack with default inputs
contains exactly one function resource and exactly one schedule rule. -/
theorem C3_one_function_one_rule :
    countType "AWS::Lambda::Function" defaultTemplate = 1 ∧
    countType "AWS::Events::Rule" defaultTemplate = 1 := by
  exact ⟨rfl, rfl⟩

/-- C4: the schedule rule of the synthesized template has exactly one
target, and that target refers to the function resource declared in the
same stack (a resource with that logical id exists in the template and is
the lambda function). -/
theorem C4_single_target_referential_integrity :
    (defaultTemplate.filter isRule).map targetsOf =
      [some [⟨"Target0", "Ec2AutoShutdownFunction"⟩]] ∧
    (defaultTemplate.filter
        (fun r => r.logicalId == "Ec2AutoShutdownFunction")).map
      (fun r => r.resourceType) = ["AWS::Lambda::Function"] := by
  exact ⟨rfl, rfl⟩

/-- C5 counterexample: the claim that no resources other than the one
rule and the one function are created is false — the synthesized template
contains two further resources (the implicit execution role and the
invoke permission). -/
theorem C5_no_other_resources_false :
    (defaultTemplate.filter (fun r => !isRule r && !isFunction r)).length
      = 2 ∧ defaultTemplate.length ≠ 2 := by
  exact ⟨rfl, by decide⟩

/-- C5 amended: deploying with default inputs yields a template with one
rule with schedule `cron(0 18 * * ? *)` and one function with a
60-second timeout, bound together through the rule's single target; the
synthesis additionally creates the function's implicit execution role and
one invoke permission, and no resources beyond those four. -/
theorem C5_default_deploy_template :
    countType "AWS::Events::Rule" defaultTemplate = 1 ∧
    countType "AWS::Lambda::Function" defaultTemplate = 1 ∧
    (defaultTemplate.filter isRule).map scheduleExprOf =
      [some "cron(0 18 * * ? *)"] ∧
    (defaultTemplate.filter isFunction).map declaredLimit = [some 60] ∧
    (defaultTemplate.filter isRule).map targetsOf =
      [some [⟨"Target0", "Ec2AutoShutdownFunction"⟩]] ∧
    countType "AWS::IAM::Role" defaultTemplate = 1 ∧
    countType "AWS::Lambda::Permission" defaultTemplate = 1 ∧
    defaultTemplate.length = 4 := by
  exact ⟨rfl, rfl, rfl, rfl, rfl, rfl, rfl, rfl⟩

/-- C6: synthesizing the stack declaration twice with identical inputs
yields identical templates — template rendering is a deterministic
function of the construct id. -/
theorem C6_synthesis_deterministic (cid cid' : String) (h : cid = cid') :
    Ec2AutoShutdownStack.synth cid = Ec2AutoShutdownStack.synth cid' := by
  rw [h]

/-- Witness for C6 at the default construct id. -/
theorem C6_synthesis_deterministic_witness :
    Ec2AutoShutdownStack.synth "ec2-auto-shutdown" =
      Ec2AutoShutdownStack.synth "ec2-auto-shutdown" :=
  C6_synthesis_deterministic "ec2-auto-shutdown" "ec2-auto-shutdown" rfl

/-- C7 counterexample: registering the same function target on the rule a
second time does not yield the same deployed state as registering it
once — the synthesized templates differ. -/
theorem C7_add_target_not_idempotent :
    Ec2AutoShutdownStack.synthDoubleTarget "ec2-auto-shutdown" ≠
      Ec2AutoShutdownStack.synth "ec2-auto-shutdown" := by
  intro h
  have h2 : defaultTemplateDouble = defaultTemplate :=
    congrArg (fun s => s.toOption.getD []) h
  exact absurd h2 (by decide)

/-- C7 amended: the register-a-target operation is not idempotent at the
declaration level: re-invoking `add_target` with the same function target
appends a second target entry under the fresh auto-generated id
`Target1`, still referring to the same function, so the rule ends up with
two targets; only the invoke-permission side of the binding is
deduplicated, the template containing a single permission resource in
both cases. -/
theorem C7_double_target_shape :
    (defaultTemplateDouble.filter isRule).map targetsOf =
      [some [⟨"Target0", "Ec2AutoShutdownFunction"⟩,
             ⟨"Target1", "Ec2AutoShutdownFunction"⟩]] ∧
    countType "AWS::Lambda::Permission" defaultTemplateDouble = 1 ∧
    countType "AWS::Lambda::Permission" defaultTemplate = 1 := by
  exact ⟨rfl, rfl, rfl⟩

/-- C8: the single test of the suite renders the stack and asserts no
resource property: its outcome is exactly the synthesis outcome with the
template discarded, it succeeds on any successfully synthesized template
whatever that template contains, and it passes precisely when synthesis
raises no error. -/
theorem C8_test_passes_iff_synth_ok :
    test_sqs_queue_created =
      testOutcomeOf (Ec2AutoShutdownStack.synth "ec2-auto-shutdown") ∧
    (∀ t : List Resource, testOutcomeOf (Except.ok t) = Except.ok ()) ∧
    (test_sqs_queue_created = Except.ok () ↔
      (Ec2AutoShutdownStack.synth "ec2-auto-shutdown").isOk = true) := by
  refine ⟨rfl, fun t => rfl, ?_⟩
  constructor
  · intro _
    rfl
  · intro _
    rfl

/-- C9: the function resource is declared with runtime tag `python3.13`,
entry point `handler.lambda_handler` and code-artifact location
`ec2_auto_shutdown/lambda`, matching the constants of the stack source
that the spec leaves unstated. -/
theorem C9_function_fixed_configuration :
    Runtime.PYTHON_3_13 = "python3.13" ∧
    (defaultTemplate.filter isFunction) =
      [⟨"Ec2AutoShutdownFunction", "AWS::Lambda::Function",
        ResourceProps.lambdaFunction "python3.13" "handler.lambda_handler"
          "ec2_auto_shutdown/lambda" 60
          "Ec2AutoShutdownFunction/ServiceRole"⟩] := by
  exact ⟨rfl, rfl⟩

/-- C10: binding the function as the rule's target synthesizes an
invoke-permission resource granting `events.amazonaws.com` the
`lambda:InvokeFunction` action on the function with the rule as source,
the function's implicit execution role is synthesized as well, and hence
the template contains more resources than the one function and one
rule. -/
theorem C10_permission_and_role_synthesized :
    (defaultTemplate.filter
        (fun r => r.resourceType == "AWS::Lambda::Permission")).map
      (fun r => r.props) =
      [ResourceProps.lambdaPermission "lambda:InvokeFunction"
        "events.amazonaws.com" "Ec2AutoShutdownFunction"
        "DailyShutdownRule"] ∧
    countType "AWS::IAM::Role" defaultTemplate = 1 ∧
    2 < defaultTemplate.length := by
  exact ⟨rfl, rfl, by decide⟩

end Ec2AutoShutdown
